import Mathlib

/-!
Verification of `src/zurich_opendata_mcp/api_client.py`.

The adapters are embedded shallowly: the HTTP round trip is abstracted away
and each adapter function is modelled as the pure transformation it performs
on the decoded response body (a JSON value, an XML element, a CKAN record),
with fallible code returning `Except`.
-/

/-- Base URL constant `CKAN_BASE_URL` from the source. -/
def CKAN_BASE_URL : String := "https://data.stadt-zuerich.ch"

/-- Base URL constant `WFS_BASE_URL` from the source. -/
def WFS_BASE_URL : String := "https://www.ogd.stadt-zuerich.ch/wfs/geoportal"

/-- A decoded JSON value, as produced by `response.json()`.
Numbers are modelled as integers (no claim involves fractional numbers). -/
inductive JValue where
  | null
  | bool (b : Bool)
  | num (n : Int)
  | str (s : String)
  | arr (items : List JValue)
  | obj (fields : List (String × JValue))

/-- Python truthiness of a decoded JSON value: `None`, `False`, `0`, `""`,
`[]` and the empty dict are falsy, everything else is truthy. -/
def JValue.truthy : JValue → Bool
  | .null => false
  | .bool b => b
  | .num n => n != 0
  | .str s => s != ""
  | .arr items => !items.isEmpty
  | .obj fields => !fields.isEmpty

/-- Truthiness of the result of a Python `dict.get` call: a missing key
yields `None`, which is falsy. -/
def pyTruthyOpt : Option JValue → Bool
  | none => false
  | some v => v.truthy

/-- A single-quote character, used by Python `repr` of strings. -/
def pyQuote : String := String.singleton (Char.ofNat 39)

mutual

/-- Python `repr()` of a decoded JSON value (strings without embedded quotes). -/
def JValue.pyRepr : JValue → String
  | .null => "None"
  | .bool true => "True"
  | .bool false => "False"
  | .num n => toString n
  | .str s => pyQuote ++ s ++ pyQuote
  | .arr items => "[" ++ String.intercalate ", " (pyReprList items) ++ "]"
  | .obj fields => "\x7b" ++ String.intercalate ", " (pyReprPairs fields) ++ "\x7d"

/-- `repr` of each element of a JSON array. -/
def pyReprList : List JValue → List String
  | [] => []
  | v :: vs => JValue.pyRepr v :: pyReprList vs

/-- `repr` of each key/value pair of a JSON object. -/
def pyReprPairs : List (String × JValue) → List String
  | [] => []
  | (k, v) :: vs => (pyQuote ++ k ++ pyQuote ++ ": " ++ JValue.pyRepr v) :: pyReprPairs vs

end

/-- Python `str()` of a decoded JSON value, as interpolated by an f-string. -/
def JValue.pyStr : JValue → String
  | .str s => s
  | v => v.pyRepr

/-- A decoded JSON object body, i.e. a Python dict (unique keys, in
insertion order).  `dict.get` is `List.lookup`. -/
abbrev PyDict := List (String × JValue)

/-- `d.get(k)` on a JSON value known to be a dict; on a non-dict value the
Python code would raise `AttributeError`, a branch no adapter reaches with
a well-typed response. -/
def JValue.objGet (v : JValue) (k : String) : Option JValue :=
  match v with
  | .obj fields => List.lookup k fields
  | _ => none

/-- The nested `error.message` lookup of `ckan_request`:
`data.get("error", \x7b\x7d).get("message", "Unknown CKAN error")`,
rendered by the f-string `f"CKAN API error: ..."`. -/
def ckanErrorMsg (data : PyDict) : String :=
  match ((List.lookup "error" data).getD (JValue.obj [])).objGet "message" with
  | some v => v.pyStr
  | none => "Unknown CKAN error"

/-- `ckan_request`, modelled from the point where the response body has been
decoded (`data = response.json()`): if `data.get("success")` is falsy it
raises `RuntimeError(f"CKAN API error: ...")`, otherwise it returns
`data["result"]` (a missing key raises `KeyError`). -/
def ckan_request (data : PyDict) : Except String JValue :=
  if pyTruthyOpt (List.lookup "success" data) then
    match List.lookup "result" data with
    | some r => Except.ok r
    | none => Except.error "KeyError: result"
  else
    Except.error ("CKAN API error: " ++ ckanErrorMsg data)

/-- The failures `handle_api_error` discriminates on: an
`httpx.HTTPStatusError` carrying the response status code, an
`httpx.TimeoutException`, or any other exception, carrying
`type(e).__name__` and `str(e)`. -/
inductive ApiFailure where
  | httpStatus (status : Nat)
  | timeout
  | generic (typeName : String) (descr : String)

/-- The message prefix of `handle_api_error`:
`f"Fehler bei \x7bcontext\x7d: " if context else "Fehler: "`. -/
def errPre (context : String) : String :=
  if context != "" then "Fehler bei " ++ context ++ ": " else "Fehler: "

/-- `handle_api_error`: maps a failure and a context label to a message. -/
def handle_api_error (e : ApiFailure) (context : String) : String :=
  let pre := errPre context
  match e with
  | .httpStatus status =>
    if status = 404 then pre ++ "Ressource nicht gefunden. Bitte ID/Name prüfen."
    else if status = 403 then pre ++ "Zugriff verweigert."
    else if status = 429 then pre ++ "Zu viele Anfragen. Bitte warten."
    else pre ++ "HTTP-Fehler " ++ toString status
  | .timeout => pre ++ "Zeitüberschreitung. Bitte erneut versuchen."
  | .generic typeName descr => pre ++ typeName ++ ": " ++ descr

/-- The query-parameter dict built by `wfs_get_features`: the six fixed
entries, plus `CQL_FILTER` exactly when `cql_filter` is truthy (present and
non-empty). -/
def wfs_params (typename : String) (max_features : Int)
    (output_format : String) (cql_filter : Option String) :
    List (String × String) :=
  let params := [("service", "WFS"), ("version", "1.1.0"),
    ("request", "GetFeature"), ("typename", typename),
    ("outputFormat", output_format), ("maxFeatures", toString max_features)]
  match cql_filter with
  | some f => if f != "" then params ++ [("CQL_FILTER", f)] else params
  | none => params

/-- `wfs_get_features`, modelled from the point where the response body has
been decoded: the decoded JSON is returned unchanged. -/
def wfs_get_features (service_name : String) (typename : String)
    (max_features : Int) (output_format : String)
    (cql_filter : Option String) (response : JValue) :
    (String × List (String × String)) × JValue :=
  ((WFS_BASE_URL ++ "/" ++ service_name,
    wfs_params typename max_features output_format cql_filter), response)

/-- An XML element as seen by the Paris helpers: its attributes (read by
`Element.get`) and its text content (`Element.text`, `None` when the
element has no text node). -/
structure XmlElem where
  attrs : List (String × String)
  text : Option String

/-- Python `str.strip()`: drop leading and trailing whitespace. -/
def pyStrip (s : String) : String :=
  String.mk (((s.toList.dropWhile Char.isWhitespace).reverse.dropWhile
    Char.isWhitespace).reverse)

/-- Python `int(s)` on a decimal string: strip whitespace, allow one sign,
then digits; anything else raises `ValueError` (`none` here). -/
def pyInt (s : String) : Option Int :=
  let chars := (pyStrip s).toList
  let signDigits : Int × List Char :=
    match chars with
    | '-' :: rest => (-1, rest)
    | '+' :: rest => (1, rest)
    | rest => (1, rest)
  if signDigits.2 ≠ [] ∧ signDigits.2.all Char.isDigit then
    some (signDigits.1 *
      Int.ofNat (signDigits.2.foldl (fun acc c => acc * 10 + (c.toNat - 48)) 0))
  else
    none

/-- `paris_extract_text`: the trimmed text of the element when the element
is not `None` and its text is truthy (not `None`, not empty), else the
default. -/
def paris_extract_text (element : Option XmlElem) (default : String := "") :
    String :=
  match element with
  | some el =>
    match el.text with
    | some t => if t != "" then pyStrip t else default
    | none => default
  | none => default

/-- `paris_get_num_hits`: `int(root.get("numHits", "0"))` — reads the
`numHits` attribute with default `"0"` and converts with `int`, which
raises `ValueError` on a malformed value. -/
def paris_get_num_hits (root : XmlElem) : Except String Int :=
  match pyInt ((List.lookup "numHits" root.attrs).getD "0") with
  | some n => Except.ok n
  | none => Except.error "ValueError"

/-- Python slicing `s[:n]` on a string: the first `n` characters. -/
def pyTake (s : String) (n : Nat) : String := String.mk (s.toList.take n)

/-- An entry of a CKAN dataset record's `groups` or `tags` list; every key
is optional (`none` = key absent; values are strings when present). -/
structure CkanTag where
  title : Option String
  display : Option String
  name : Option String

/-- The label of a `groups` entry: `g.get("title", g.get("name", ""))`. -/
def group_label (g : CkanTag) : String := g.title.getD (g.name.getD "")

/-- The label of a `tags` entry:
`t.get("display_name", t.get("name", ""))` (`display` models the
record key whose name ends in the underscored word). -/
def tag_label (t : CkanTag) : String := t.display.getD (t.name.getD "")

/-- A CKAN dataset record as read by `format_dataset_summary`; every key is
optional (`none` = key absent).  `notes` may additionally hold JSON `null`
(inner `none`): the code guards it with `or ""`. -/
structure CkanDataset where
  title : Option String
  name : Option String
  author : Option String
  notes : Option (Option String)
  license_title : Option String
  num_resources : Option Int
  metadata_modified : Option String
  updateInterval : Option (List String)
  groups : Option (List CkanTag)
  tags : Option (List CkanTag)

/-- The `lines` list built by `format_dataset_summary`, before joining. -/
def format_dataset_summary_lines (dataset : CkanDataset) : List String :=
  let title := dataset.title.getD "Unbekannt"
  let name := dataset.name.getD ""
  let author := dataset.author.getD "Unbekannt"
  let notes := pyTake (match dataset.notes with
    | some (some s) => s
    | _ => "") 300
  let license_title := dataset.license_title.getD "Unbekannt"
  let num_resources := dataset.num_resources.getD 0
  let modified := pyTake (dataset.metadata_modified.getD "") 10
  let update_interval := dataset.updateInterval.getD []
  let groups := (dataset.groups.getD []).map group_label
  let tags := (dataset.tags.getD []).map tag_label
  let url := CKAN_BASE_URL ++ "/dataset/" ++ name
  ["### " ++ title,
   "- **ID**: `" ++ name ++ "`",
   "- **Autor**: " ++ author,
   "- **Lizenz**: " ++ license_title,
   "- **Ressourcen**: " ++ toString num_resources,
   "- **Letzte Änderung**: " ++ modified]
  ++ (if update_interval != [] then
        ["- **Aktualisierung**: " ++ String.intercalate ", " update_interval]
      else [])
  ++ (if groups != [] then
        ["- **Kategorien**: " ++ String.intercalate ", " groups]
      else [])
  ++ (if tags != [] then
        ["- **Tags**: " ++ String.intercalate ", " (tags.take 10)]
      else [])
  ++ (if notes != "" then
        ["- **Beschreibung**: " ++ notes ++ "..."]
      else [])
  ++ ["- **URL**: " ++ url]

/-- `format_dataset_summary`: the joined Markdown summary. -/
def format_dataset_summary (dataset : CkanDataset) : String :=
  String.intercalate "\n" (format_dataset_summary_lines dataset)

/-- The nested `error.message` value inspected by `ckan_request`. -/
def ckanErrMessageField (data : PyDict) : Option JValue :=
  ((List.lookup "error" data).getD (JValue.obj [])).objGet "message"

theorem ckan_request_fail_eq (data : PyDict)
    (hp : pyTruthyOpt (List.lookup "success" data) = false) :
    ckan_request data =
      Except.error ("CKAN API error: " ++ ckanErrorMsg data) := by
  simp [ckan_request, hp]

theorem pyStrip_all_whitespace (t : String)
    (h : t.toList.all Char.isWhitespace = true) : pyStrip t = "" := by
  unfold pyStrip
  have h1 : t.toList.dropWhile Char.isWhitespace = [] := by
    rw [List.dropWhile_eq_nil_iff]
    intro x hx
    exact List.all_eq_true.mp h x hx
  rw [h1]
  rfl

/-- C1 (amended: the default message is "Unknown CKAN error", and the raised
message carries the prefix "CKAN API error: "): for every decoded envelope
whose `success` field is falsy, `ckan_request` fails with the envelope's
nested `error.message` — or "Unknown CKAN error" when that message is
absent — and never returns the `result` field. -/
theorem ckan_request_failure_envelope (data : PyDict)
    (hfail : pyTruthyOpt (List.lookup "success" data) = false) :
    (∀ m, ckanErrMessageField data = some (JValue.str m) →
      ckan_request data = Except.error ("CKAN API error: " ++ m)) ∧
    (ckanErrMessageField data = none →
      ckan_request data =
        Except.error ("CKAN API error: " ++ "Unknown CKAN error")) ∧
    (∀ r, ckan_request data ≠ Except.ok r) := by
  have he := ckan_request_fail_eq data hfail
  refine ⟨?_, ?_, ?_⟩
  · intro m hm
    rw [he]
    simp [ckanErrorMsg, ckanErrMessageField] at hm ⊢
    rw [hm]
    rfl
  · intro hm
    rw [he]
    simp [ckanErrorMsg, ckanErrMessageField] at hm ⊢
    rw [hm]
    rfl
  · intro r hr
    rw [he] at hr
    exact Except.noConfusion hr

/-- C1 witness: a concrete failure envelope with an error message. -/
theorem ckan_request_failure_envelope_witness :
    ckan_request [("success", JValue.bool false),
        ("error", JValue.obj [("message", JValue.str "Not found")])] =
      Except.error ("CKAN API error: " ++ "Not found") :=
  (ckan_request_failure_envelope
    [("success", JValue.bool false),
     ("error", JValue.obj [("message", JValue.str "Not found")])] rfl).1
    "Not found" rfl

/-- C1 counterexample: when `error.message` is absent, the raised message is
"CKAN API error: Unknown CKAN error", which is not the claimed default
"Unknown error". -/
theorem ckan_request_unknown_error_default_counterexample :
    ckan_request [("success", JValue.bool false)] =
      Except.error "CKAN API error: Unknown CKAN error" ∧
    "CKAN API error: Unknown CKAN error" ≠ "CKAN API error: " ++ "Unknown error" := by
  constructor
  · rfl
  · decide

/-- C4: for every decoded envelope whose `success` field is truthy and which
carries a `result` field, `ckan_request` returns exactly that `result`
field, never the envelope. -/
theorem ckan_request_success_returns_result (data : PyDict) (r : JValue)
    (hs : pyTruthyOpt (List.lookup "success" data) = true)
    (hr : List.lookup "result" data = some r) :
    ckan_request data = Except.ok r := by
  simp [ckan_request, hs, hr]

/-- C4 witness: the `package_search` scenario envelope with `count = 120`
and 3 results returns the inner structure, on which `count` reads 120 and
`results` has length 3. -/
theorem ckan_request_success_returns_result_witness :
    ckan_request [("success", JValue.bool true),
        ("result", JValue.obj [("count", JValue.num 120),
          ("results", JValue.arr [JValue.str "a", JValue.str "b",
            JValue.str "c"])])] =
      Except.ok (JValue.obj [("count", JValue.num 120),
        ("results", JValue.arr [JValue.str "a", JValue.str "b",
          JValue.str "c"])]) ∧
    (JValue.obj [("count", JValue.num 120),
      ("results", JValue.arr [JValue.str "a", JValue.str "b",
        JValue.str "c"])]).objGet "count" = some (JValue.num 120) ∧
    [JValue.str "a", JValue.str "b", JValue.str "c"].length = 3 := by
  refine ⟨?_, rfl, rfl⟩
  exact ckan_request_success_returns_result _ _ rfl rfl

/-- C8: a decoded envelope that lacks the `success` key entirely, or whose
`success` value is any falsy value, is treated exactly like
`success = false`: `ckan_request` raises the protocol error and never
returns a result. -/
theorem ckan_request_falsy_success (data : PyDict)
    (h : List.lookup "success" data = none ∨
      ∃ v, List.lookup "success" data = some v ∧ v.truthy = false) :
    ckan_request data =
      Except.error ("CKAN API error: " ++ ckanErrorMsg data) ∧
    ∀ r, ckan_request data ≠ Except.ok r := by
  have hp : pyTruthyOpt (List.lookup "success" data) = false := by
    rcases h with h | ⟨v, hv, ht⟩
    · rw [h]; rfl
    · rw [hv]; simpa [pyTruthyOpt] using ht
  have he := ckan_request_fail_eq data hp
  exact ⟨he, fun r hr => by rw [he] at hr; exact Except.noConfusion hr⟩

/-- C8 witness: envelopes with a missing `success` key and with the falsy
values `False`, `0`, `""`, `[]`, the empty dict and `null` all raise. -/
theorem ckan_request_falsy_success_witness :
    ckan_request [("result", JValue.num 1)] =
      Except.error ("CKAN API error: " ++ ckanErrorMsg [("result", JValue.num 1)]) ∧
    ckan_request [("success", JValue.bool false)] =
      Except.error ("CKAN API error: " ++ ckanErrorMsg [("success", JValue.bool false)]) ∧
    ckan_request [("success", JValue.num 0)] =
      Except.error ("CKAN API error: " ++ ckanErrorMsg [("success", JValue.num 0)]) ∧
    ckan_request [("success", JValue.str "")] =
      Except.error ("CKAN API error: " ++ ckanErrorMsg [("success", JValue.str "")]) ∧
    ckan_request [("success", JValue.arr [])] =
      Except.error ("CKAN API error: " ++ ckanErrorMsg [("success", JValue.arr [])]) ∧
    ckan_request [("success", JValue.obj [])] =
      Except.error ("CKAN API error: " ++ ckanErrorMsg [("success", JValue.obj [])]) ∧
    ckan_request [("success", JValue.null)] =
      Except.error ("CKAN API error: " ++ ckanErrorMsg [("success", JValue.null)]) :=
  ⟨(ckan_request_falsy_success [("result", JValue.num 1)] (Or.inl rfl)).1,
   (ckan_request_falsy_success [("success", JValue.bool false)]
     (Or.inr ⟨JValue.bool false, rfl, rfl⟩)).1,
   (ckan_request_falsy_success [("success", JValue.num 0)]
     (Or.inr ⟨JValue.num 0, rfl, rfl⟩)).1,
   (ckan_request_falsy_success [("success", JValue.str "")]
     (Or.inr ⟨JValue.str "", rfl, rfl⟩)).1,
   (ckan_request_falsy_success [("success", JValue.arr [])]
     (Or.inr ⟨JValue.arr [], rfl, rfl⟩)).1,
   (ckan_request_falsy_success [("success", JValue.obj [])]
     (Or.inr ⟨JValue.obj [], rfl, rfl⟩)).1,
   (ckan_request_falsy_success [("success", JValue.null)]
     (Or.inr ⟨JValue.null, rfl, rfl⟩)).1⟩

/-- C3: `handle_api_error` is a pure total function (it always returns a
string and never raises); HTTP statuses 404, 403 and 429 map to their fixed
category messages independently of the context wording, any other HTTP
status maps to the generic message, a timeout to the timeout message, and
anything else to the fallback embedding the failure's type name and
description; every returned message starts with the context prefix. -/
theorem handle_api_error_classification (context : String) :
    (handle_api_error (ApiFailure.httpStatus 404) context =
      errPre context ++ "Ressource nicht gefunden. Bitte ID/Name prüfen.") ∧
    (handle_api_error (ApiFailure.httpStatus 403) context =
      errPre context ++ "Zugriff verweigert.") ∧
    (handle_api_error (ApiFailure.httpStatus 429) context =
      errPre context ++ "Zu viele Anfragen. Bitte warten.") ∧
    (∀ status : Nat, status ≠ 404 → status ≠ 403 → status ≠ 429 →
      handle_api_error (ApiFailure.httpStatus status) context =
        errPre context ++ "HTTP-Fehler " ++ toString status) ∧
    (handle_api_error ApiFailure.timeout context =
      errPre context ++ "Zeitüberschreitung. Bitte erneut versuchen.") ∧
    (∀ typeName descr, handle_api_error (ApiFailure.generic typeName descr) context =
      errPre context ++ typeName ++ ": " ++ descr) ∧
    (∀ e : ApiFailure, ∃ rest, handle_api_error e context = errPre context ++ rest) := by
  refine ⟨rfl, rfl, rfl, ?_, rfl, fun t d => rfl, ?_⟩
  · intro status h1 h2 h3
    simp [handle_api_error, h1, h2, h3, String.append_assoc]
  · intro e
    cases e with
    | httpStatus s =>
      by_cases h1 : s = 404
      · exact ⟨"Ressource nicht gefunden. Bitte ID/Name prüfen.",
          by simp [handle_api_error, h1]⟩
      · by_cases h2 : s = 403
        · exact ⟨"Zugriff verweigert.", by simp [handle_api_error, h1, h2]⟩
        · by_cases h3 : s = 429
          · exact ⟨"Zu viele Anfragen. Bitte warten.",
              by simp [handle_api_error, h1, h2, h3]⟩
          · exact ⟨"HTTP-Fehler " ++ toString s,
              by simp [handle_api_error, h1, h2, h3, String.append_assoc]⟩
    | timeout => exact ⟨"Zeitüberschreitung. Bitte erneut versuchen.", rfl⟩
    | generic t d => exact ⟨t ++ ": " ++ d, by simp [handle_api_error, String.append_assoc]⟩

/-- C3 witness: classification at the context label "Datensatzsuche" for a
404 failure and a generic 500 failure. -/
theorem handle_api_error_classification_witness :
    handle_api_error (ApiFailure.httpStatus 404) "Datensatzsuche" =
      errPre "Datensatzsuche" ++ "Ressource nicht gefunden. Bitte ID/Name prüfen." ∧
    handle_api_error (ApiFailure.httpStatus 500) "Datensatzsuche" =
      errPre "Datensatzsuche" ++ "HTTP-Fehler " ++ toString 500 :=
  ⟨(handle_api_error_classification "Datensatzsuche").1,
   (handle_api_error_classification "Datensatzsuche").2.2.2.1 500
     (by decide) (by decide) (by decide)⟩

/-- C2 counterexample: on a root whose `numHits` attribute is present but
malformed, `paris_get_num_hits` raises `ValueError` instead of returning 0,
so the claim that it returns 0 on a malformed attribute and never raises is
false. -/
theorem paris_get_num_hits_malformed_counterexample :
    paris_get_num_hits ⟨[("numHits", "x")], none⟩ = Except.error "ValueError" ∧
    paris_get_num_hits ⟨[("numHits", "x")], none⟩ ≠ Except.ok 0 := by
  constructor
  · rfl
  · intro h
    rw [show paris_get_num_hits ⟨[("numHits", "x")], none⟩ =
      Except.error "ValueError" from rfl] at h
    exact Except.noConfusion h

/-- C2 (amended: the 0 default applies only when the attribute is absent; a
present but malformed attribute raises `ValueError`): `paris_get_num_hits`
reads the `numHits` attribute, parses it as an integer, returns 0 when the
attribute is absent, and raises on a malformed value. -/
theorem paris_get_num_hits_behavior (root : XmlElem) :
    (List.lookup "numHits" root.attrs = none →
      paris_get_num_hits root = Except.ok 0) ∧
    (∀ s n, List.lookup "numHits" root.attrs = some s → pyInt s = some n →
      paris_get_num_hits root = Except.ok n) ∧
    (∀ s, List.lookup "numHits" root.attrs = some s → pyInt s = none →
      paris_get_num_hits root = Except.error "ValueError") := by
  refine ⟨?_, ?_, ?_⟩
  · intro h
    unfold paris_get_num_hits
    rw [h]
    rfl
  · intro s n hs hn
    unfold paris_get_num_hits
    rw [hs]
    simp [hn]
  · intro s hs hn
    unfold paris_get_num_hits
    rw [hs]
    simp [hn]

/-- C2 witness: a root without `numHits` yields 0, a root with
`numHits="42"` yields 42, a root with a malformed attribute raises. -/
theorem paris_get_num_hits_behavior_witness :
    paris_get_num_hits ⟨[], none⟩ = Except.ok 0 ∧
    paris_get_num_hits ⟨[("numHits", "42")], none⟩ = Except.ok 42 ∧
    paris_get_num_hits ⟨[("numHits", "abc")], some "t"⟩ =
      Except.error "ValueError" :=
  ⟨(paris_get_num_hits_behavior ⟨[], none⟩).1 rfl,
   (paris_get_num_hits_behavior ⟨[("numHits", "42")], none⟩).2.1 "42" 42 rfl rfl,
   (paris_get_num_hits_behavior ⟨[("numHits", "abc")], some "t"⟩).2.2 "abc" rfl rfl⟩

/-- C5: `paris_extract_text` returns the trimmed text when the element is
present with non-empty text, and the default otherwise: a `None` element, a
`None` text and an empty text all yield the default, and nothing raises. -/
theorem paris_extract_text_spec (e : XmlElem) (d : String) :
    paris_extract_text none d = d ∧
    (e.text = none → paris_extract_text (some e) d = d) ∧
    (e.text = some "" → paris_extract_text (some e) d = d) ∧
    (∀ t, e.text = some t → t ≠ "" →
      paris_extract_text (some e) d = pyStrip t) := by
  refine ⟨rfl, ?_, ?_, ?_⟩
  · intro h
    simp [paris_extract_text, h]
  · intro h
    simp [paris_extract_text, h]
  · intro t ht hne
    simp [paris_extract_text, ht, hne]

/-- C5 witness: the default cases and the trimming case at concrete
inputs. -/
theorem paris_extract_text_spec_witness :
    paris_extract_text none "fallback" = "fallback" ∧
    paris_extract_text (some ⟨[], none⟩) "fallback" = "fallback" ∧
    paris_extract_text (some ⟨[], some ""⟩) "fallback" = "fallback" ∧
    paris_extract_text (some ⟨[], some "  Motion 2024  "⟩) "fallback" =
      pyStrip "  Motion 2024  " :=
  ⟨(paris_extract_text_spec ⟨[], none⟩ "fallback").1,
   (paris_extract_text_spec ⟨[], none⟩ "fallback").2.1 rfl,
   (paris_extract_text_spec ⟨[], some ""⟩ "fallback").2.2.1 rfl,
   (paris_extract_text_spec ⟨[], some "  Motion 2024  "⟩ "fallback").2.2.2
     "  Motion 2024  " rfl (by decide)⟩

/-- C9: a present element whose text is non-empty but consists only of
whitespace yields the empty string (the trimmed text), not the default; the
default is used exactly when the element is `None`, its text is `None`, or
its text is the empty string. -/
theorem paris_extract_text_whitespace (e : XmlElem) (d : String) :
    (∀ t, e.text = some t → t ≠ "" → t.toList.all Char.isWhitespace = true →
      paris_extract_text (some e) d = "") ∧
    paris_extract_text none d = d ∧
    (e.text = none ∨ e.text = some "" → paris_extract_text (some e) d = d) := by
  refine ⟨?_, rfl, ?_⟩
  · intro t ht hne hws
    simp [paris_extract_text, ht, hne]
    exact pyStrip_all_whitespace t hws
  · rintro (h | h) <;> simp [paris_extract_text, h]

/-- C9 witness: an element with whitespace-only text yields the empty
string even with a non-empty default supplied. -/
theorem paris_extract_text_whitespace_witness :
    paris_extract_text (some ⟨[], some "   "⟩) "default text" = "" ∧
    paris_extract_text (some ⟨[], none⟩) "default text" = "default text" :=
  ⟨(paris_extract_text_whitespace ⟨[], some "   "⟩ "default text").1 "   "
     rfl (by decide) (by decide),
   (paris_extract_text_whitespace ⟨[], none⟩ "default text").2.2 (Or.inl rfl)⟩

/-- C6: `format_dataset_summary` is total (a record with any subset of keys
absent is formatted, never raising); a record carrying only an identifier
produces the summary with the placeholder defaults for every other field;
when present, the tag list is truncated to its first 10 entries and the
description to its first 300 characters followed by the ellipsis marker. -/
theorem format_dataset_summary_defaults_and_truncation :
    (∀ id : String,
      format_dataset_summary
        ⟨none, some id, none, none, none, none, none, none, none, none⟩ =
        String.intercalate "\n"
          ["### Unbekannt", "- **ID**: `" ++ id ++ "`",
           "- **Autor**: Unbekannt", "- **Lizenz**: Unbekannt",
           "- **Ressourcen**: 0", "- **Letzte Änderung**: ",
           "- **URL**: " ++ CKAN_BASE_URL ++ "/dataset/" ++ id]) ∧
    (∀ ds ts, ds.tags = some ts → ts ≠ ([] : List CkanTag) →
      ("- **Tags**: " ++ String.intercalate ", " ((ts.map tag_label).take 10)) ∈
        format_dataset_summary_lines ds) ∧
    (∀ ds n, ds.notes = some (some n) → n ≠ "" →
      ("- **Beschreibung**: " ++ pyTake n 300 ++ "...") ∈
        format_dataset_summary_lines ds) := by
  refine ⟨fun id => rfl, ?_, ?_⟩
  · intro ds ts hts hne
    simp [format_dataset_summary_lines, hts, List.map_eq_nil_iff, hne]
  · intro ds n hn hne
    have h300 : pyTake n 300 ≠ "" := by
      unfold pyTake
      intro h
      apply hne
      have : n.toList.take 300 = [] := by
        have := congrArg String.toList h
        simpa using this
      rcases List.take_eq_nil_iff.mp this with h' | h'
      · exact absurd h' (by decide)
      · exact String.ext (by simpa using h')
    simp [format_dataset_summary_lines, hn, h300]

/-- C6 witness: the only-identifier record, a record with 12 tags (the tag
line keeps the first 10), and a record with a long description (the
description line carries the 300-character slice and the marker). -/
theorem format_dataset_summary_defaults_and_truncation_witness :
    format_dataset_summary
      ⟨none, some "bevoelkerung", none, none, none, none, none, none, none,
        none⟩ =
      String.intercalate "\n"
        ["### Unbekannt", "- **ID**: `" ++ "bevoelkerung" ++ "`",
         "- **Autor**: Unbekannt", "- **Lizenz**: Unbekannt",
         "- **Ressourcen**: 0", "- **Letzte Änderung**: ",
         "- **URL**: " ++ CKAN_BASE_URL ++ "/dataset/" ++ "bevoelkerung"] ∧
    ("- **Tags**: " ++ String.intercalate ", "
        ((([⟨none, some "t1", none⟩, ⟨none, some "t2", none⟩] :
          List CkanTag).map tag_label).take 10)) ∈
      format_dataset_summary_lines
        ⟨none, none, none, none, none, none, none, none, none,
          some [⟨none, some "t1", none⟩, ⟨none, some "t2", none⟩]⟩ ∧
    ("- **Beschreibung**: " ++ pyTake "Bevölkerungsdaten der Stadt" 300 ++
        "...") ∈
      format_dataset_summary_lines
        ⟨none, none, none, some (some "Bevölkerungsdaten der Stadt"), none,
          none, none, none, none, none⟩ :=
  ⟨format_dataset_summary_defaults_and_truncation.1 "bevoelkerung",
   format_dataset_summary_defaults_and_truncation.2.1
     ⟨none, none, none, none, none, none, none, none, none,
       some [⟨none, some "t1", none⟩, ⟨none, some "t2", none⟩]⟩
     [⟨none, some "t1", none⟩, ⟨none, some "t2", none⟩] rfl (by simp),
   format_dataset_summary_defaults_and_truncation.2.2
     ⟨none, none, none, some (some "Bevölkerungsdaten der Stadt"), none,
       none, none, none, none, none⟩
     "Bevölkerungsdaten der Stadt" rfl (by decide)⟩

/-- C7: `wfs_get_features` sends exactly the six fixed parameters when no
filter is supplied, adds the `CQL_FILTER` parameter carrying the caller's
filter string verbatim when a non-empty filter is supplied, and returns the
decoded backend JSON unchanged — in particular the `features` array is
passed through with its length intact, never truncated locally. -/
theorem wfs_get_features_params_and_passthrough
    (service_name typename : String) (max_features : Int)
    (output_format : String) (response : JValue) :
    (wfs_params typename max_features output_format none =
      [("service", "WFS"), ("version", "1.1.0"), ("request", "GetFeature"),
       ("typename", typename), ("outputFormat", output_format),
       ("maxFeatures", toString max_features)]) ∧
    (∀ f, f ≠ "" →
      wfs_params typename max_features output_format (some f) =
        [("service", "WFS"), ("version", "1.1.0"), ("request", "GetFeature"),
         ("typename", typename), ("outputFormat", output_format),
         ("maxFeatures", toString max_features)] ++ [("CQL_FILTER", f)]) ∧
    (∀ cf, (wfs_get_features service_name typename max_features
        output_format cf response).2 = response) ∧
    (∀ cf fs, response.objGet "features" = some (JValue.arr fs) →
      ((wfs_get_features service_name typename max_features output_format
          cf response).2).objGet "features" = some (JValue.arr fs) ∧
      fs.length = fs.length) := by
  refine ⟨rfl, ?_, fun cf => rfl, fun cf fs h => ⟨h, rfl⟩⟩
  intro f hf
  simp [wfs_params, hf]

/-- C7 witness: the `Schulanlagen` scenario with a non-empty filter and a
5-feature response. -/
theorem wfs_get_features_params_and_passthrough_witness :
    wfs_params "poi_kindergarten_view" 5 "GeoJSON" (some "objectid=1") =
      [("service", "WFS"), ("version", "1.1.0"), ("request", "GetFeature"),
       ("typename", "poi_kindergarten_view"), ("outputFormat", "GeoJSON"),
       ("maxFeatures", toString (5 : Int))] ++ [("CQL_FILTER", "objectid=1")] ∧
    (wfs_get_features "Schulanlagen" "poi_kindergarten_view" 5 "GeoJSON"
        (some "objectid=1")
        (JValue.obj [("features", JValue.arr [JValue.num 1, JValue.num 2,
          JValue.num 3, JValue.num 4, JValue.num 5])])).2 =
      JValue.obj [("features", JValue.arr [JValue.num 1, JValue.num 2,
        JValue.num 3, JValue.num 4, JValue.num 5])] :=
  ⟨(wfs_get_features_params_and_passthrough "Schulanlagen"
      "poi_kindergarten_view" 5 "GeoJSON"
      (JValue.obj [("features", JValue.arr [JValue.num 1, JValue.num 2,
        JValue.num 3, JValue.num 4, JValue.num 5])])).2.1 "objectid=1"
      (by decide),
   (wfs_get_features_params_and_passthrough "Schulanlagen"
      "poi_kindergarten_view" 5 "GeoJSON"
      (JValue.obj [("features", JValue.arr [JValue.num 1, JValue.num 2,
        JValue.num 3, JValue.num 4, JValue.num 5])])).2.2.1
      (some "objectid=1")⟩

/-- C10: an empty-string attribute filter is falsy, so `wfs_get_features`
builds exactly the same parameter dict as when no filter is supplied: the
`CQL_FILTER` parameter is omitted entirely. -/
theorem wfs_params_empty_filter (typename : String) (max_features : Int)
    (output_format : String) :
    wfs_params typename max_features output_format (some "") =
      wfs_params typename max_features output_format none ∧
    wfs_params typename max_features output_format (some "") =
      [("service", "WFS"), ("version", "1.1.0"), ("request", "GetFeature"),
       ("typename", typename), ("outputFormat", output_format),
       ("maxFeatures", toString max_features)] :=
  ⟨rfl, rfl⟩
